import Mathlib

/-!
Verification of the mediasoup Rust control-plane client (data consumer /
data producer close cascade, worker lifecycle, control channel).

The definitions below are a shallow embedding of the Rust source under
`src/rust/src/`.  Callbacks are represented by `Nat` tokens; invoking a
callback is recorded as an element of an explicit effect trace, so that
"fires exactly once" becomes a statement about the trace.  `BagOnce`
(from `event_listener_primitives`) removes every callback when
`call_simple` runs, which is modelled by emptying the corresponding list
while appending the fired tokens to the trace; `Bag` (multi-fire) keeps
its callbacks.  Atomic operations on the `closed` flag serialise
concurrent close triggers, so an arbitrary interleaving of triggers is
modelled as a finite sequence of trigger events.
-/

set_option autoImplicit false

namespace Mediasoup

/-- Identity chain carried by `DataConsumerCloseRequest`
    (`DataConsumerInternal` in `messages.rs`); UUIDs are modelled as `Nat`. -/
structure DataConsumerInternal where
  routerId : Nat
  transportId : Nat
  dataConsumerId : Nat
  dataProducerId : Nat
deriving DecidableEq, Repr

/-- Identity chain carried by `DataProducerCloseRequest`
    (`DataProducerInternal` in `messages.rs`). -/
structure DataProducerInternal where
  routerId : Nat
  transportId : Nat
  dataProducerId : Nat
deriving DecidableEq, Repr

/-- The `Handlers` struct of `data_consumer.rs`: `message`,
    `sctp_send_buffer_full` and `buffered_amount_low` are multi-fire `Bag`s;
    `data_producer_close`, `transport_close` and `close` are `BagOnce`. -/
structure DataConsumerHandlers where
  message : List Nat
  sctpSendBufferFull : List Nat
  bufferedAmountLow : List Nat
  dataProducerClose : List Nat
  transportClose : List Nat
  close : List Nat
deriving DecidableEq, Repr

/-- Observable effects of data-consumer operations: callback invocations,
    the detached upstream close request spawned by `Inner::close`, and log
    lines (`error!`). -/
inductive DCEffect where
  | firedClose (cb : Nat)
  | firedTransportClose (cb : Nat)
  | firedDataProducerClose (cb : Nat)
  | firedSctpSendBufferFull (cb : Nat)
  | firedBufferedAmountLow (cb : Nat) (amount : Nat)
  | firedMessage (cb : Nat) (ppid : Nat) (payload : List Nat)
  | spawnedCloseRequest (internal : DataConsumerInternal)
  | loggedParseError
  | loggedPayloadParseError
  | loggedCloseRequestError
deriving DecidableEq, Repr

/-- The state of `data_consumer.rs`'s `Inner` that the close cascade
    touches: the `closed: AtomicBool` flag and the handler bags. -/
structure DataConsumerState where
  internal : DataConsumerInternal
  closed : Bool
  handlers : DataConsumerHandlers
deriving DecidableEq, Repr

/-- Embeds `Inner::close` of `data_consumer.rs` (lines 221-249): a single atomic
    `swap(true)` decides the winner; the winner fires the single-fire
    `close` bag and spawns a detached task sending
    `DataConsumerCloseRequest` upstream.  The swap's loser observes `true`
    and does nothing. -/
def dataConsumerClose (s : DataConsumerState) : DataConsumerState × List DCEffect :=
  if s.closed then (s, [])
  else
    ({ s with closed := true, handlers := { s.handlers with close := [] } },
      s.handlers.close.map DCEffect.firedClose
        ++ [DCEffect.spawnedCloseRequest s.internal])

/-- The four ways a data consumer's close can be triggered (claim C1):
    an explicit first-party close, drop of the last owning handle
    (`Drop for Inner` calls `self.close()`), the `on_transport_close`
    cascade registered in `DataConsumer::new`, and the
    `DataProducerClose` notification handler. -/
inductive DCCloseTrigger where
  | explicitClose
  | dropLastHandle
  | transportClose
  | dataProducerCloseNotice
deriving DecidableEq, Repr

/-- Apply one close trigger to a data consumer.  The transport-close
    handler first fires the `transport_close` bag, then calls
    `inner.close()`; the `DataProducerClose` notification handler first
    fires the `data_producer_close` bag, then calls `inner.close()`
    (both in `DataConsumer::new`). -/
def dcApplyTrigger (s : DataConsumerState) : DCCloseTrigger → DataConsumerState × List DCEffect
  | .explicitClose => dataConsumerClose s
  | .dropLastHandle => dataConsumerClose s
  | .transportClose =>
      let fired := s.handlers.transportClose.map DCEffect.firedTransportClose
      let s1 := { s with handlers := { s.handlers with transportClose := [] } }
      let r := dataConsumerClose s1
      (r.1, fired ++ r.2)
  | .dataProducerCloseNotice =>
      let fired := s.handlers.dataProducerClose.map DCEffect.firedDataProducerClose
      let s1 := { s with handlers := { s.handlers with dataProducerClose := [] } }
      let r := dataConsumerClose s1
      (r.1, fired ++ r.2)

/-- Run a sequence of close triggers, concatenating effect traces. -/
def dcRunTriggers (s : DataConsumerState) : List DCCloseTrigger → DataConsumerState × List DCEffect
  | [] => (s, [])
  | t :: ts =>
      let r1 := dcApplyTrigger s t
      let r2 := dcRunTriggers r1.1 ts
      (r2.1, r1.2 ++ r2.2)

/-- The `close` callbacks fired in a trace, in order. -/
def dcFiredCloseList (effs : List DCEffect) : List Nat :=
  effs.filterMap fun e =>
    match e with
    | .firedClose cb => some cb
    | _ => none

/-- Number of upstream `DataConsumerCloseRequest`s spawned in a trace. -/
def dcCloseRequestCount (effs : List DCEffect) : Nat :=
  (effs.filterMap fun e =>
    match e with
    | .spawnedCloseRequest i => some i
    | _ => none).length

/-- The `Handlers` struct of `data_producer.rs`: both bags are `BagOnce`. -/
structure DataProducerHandlers where
  transportClose : List Nat
  close : List Nat
deriving DecidableEq, Repr

/-- Observable effects of data-producer operations. -/
inductive DPEffect where
  | firedClose (cb : Nat)
  | firedTransportClose (cb : Nat)
  | spawnedCloseRequest (internal : DataProducerInternal)
  | loggedCloseRequestError
deriving DecidableEq, Repr

/-- The close-relevant state of `data_producer.rs`'s `Inner`. -/
structure DataProducerState where
  internal : DataProducerInternal
  closed : Bool
  handlers : DataProducerHandlers
deriving DecidableEq, Repr

/-- Embeds `Inner::close` of `data_producer.rs` (lines 154-181): same shape as the
    data consumer's close, sending `DataProducerCloseRequest` upstream. -/
def dataProducerClose (s : DataProducerState) : DataProducerState × List DPEffect :=
  if s.closed then (s, [])
  else
    ({ s with closed := true, handlers := { s.handlers with close := [] } },
      s.handlers.close.map DPEffect.firedClose
        ++ [DPEffect.spawnedCloseRequest s.internal])

/-- Close triggers for a data producer: explicit `close()` (pub(super)),
    drop of the last owning handle, and the `on_transport_close` cascade
    registered in `DataProducer::new`.  (There is no notification
    subscription in `data_producer.rs`.) -/
inductive DPCloseTrigger where
  | explicitClose
  | dropLastHandle
  | transportClose
deriving DecidableEq, Repr

/-- Apply one close trigger to a data producer. -/
def dpApplyTrigger (s : DataProducerState) : DPCloseTrigger → DataProducerState × List DPEffect
  | .explicitClose => dataProducerClose s
  | .dropLastHandle => dataProducerClose s
  | .transportClose =>
      let fired := s.handlers.transportClose.map DPEffect.firedTransportClose
      let s1 := { s with handlers := { s.handlers with transportClose := [] } }
      let r := dataProducerClose s1
      (r.1, fired ++ r.2)

/-- Run a sequence of data-producer close triggers. -/
def dpRunTriggers (s : DataProducerState) : List DPCloseTrigger → DataProducerState × List DPEffect
  | [] => (s, [])
  | t :: ts =>
      let r1 := dpApplyTrigger s t
      let r2 := dpRunTriggers r1.1 ts
      (r2.1, r1.2 ++ r2.2)

/-- The `close` callbacks fired in a data-producer trace. -/
def dpFiredCloseList (effs : List DPEffect) : List Nat :=
  effs.filterMap fun e =>
    match e with
    | .firedClose cb => some cb
    | _ => none

/-- Number of upstream `DataProducerCloseRequest`s spawned in a trace. -/
def dpCloseRequestCount (effs : List DPEffect) : Nat :=
  (effs.filterMap fun e =>
    match e with
    | .spawnedCloseRequest i => some i
    | _ => none).length

/-- A `serde_json::Value`, as far as the notification bodies need it. -/
inductive Json where
  | str (s : String)
  | num (n : Nat)
  | bool (b : Bool)
  | null
  | arr (elems : List Json)
  | obj (fields : List (String × Json))

/-- First field with the given key in a JSON object. -/
def jsonLookup (key : String) : List (String × Json) → Option Json
  | [] => none
  | (k, v) :: rest => if k = key then some v else jsonLookup key rest

/-- The `Notification` enum of `data_consumer.rs` (serde adjacently tagged
    with `tag = "event"`, `content = "data"`, `rename_all = "lowercase"`). -/
inductive DCNotice where
  | dataProducerClose
  | sctpSendBufferFull
  | bufferedAmountLow (bufferedAmount : Nat)
deriving DecidableEq, Repr

/-- Embeds `serde_json::from_value::<Notification>` for the data consumer's
    control-channel notifications: the `event` field selects the variant
    (names lowercased), `bufferedamountlow` additionally requires a
    `data` object with a camelCase `bufferedAmount` number. -/
def parseDCNotice (v : Json) : Option DCNotice :=
  match v with
  | .obj fields =>
    match jsonLookup "event" fields with
    | some (.str "dataproducerclose") => some .dataProducerClose
    | some (.str "sctpsendbufferfull") => some .sctpSendBufferFull
    | some (.str "bufferedamountlow") =>
      match jsonLookup "data" fields with
      | some (.obj dataFields) =>
        match jsonLookup "bufferedAmount" dataFields with
        | some (.num n) => some (.bufferedAmountLow n)
        | _ => none
      | _ => none
    | _ => none
  | _ => none

/-- The `PayloadNotification` enum of `data_consumer.rs`
    (`Message { ppid: u32 }`, same serde tagging). -/
inductive DCPayloadNotice where
  | message (ppid : Nat)
deriving DecidableEq, Repr

/-- Embeds `serde_json::from_value::<PayloadNotification>` for the data
    consumer's payload-channel notifications. -/
def parseDCPayloadNotice (v : Json) : Option DCPayloadNotice :=
  match v with
  | .obj fields =>
    match jsonLookup "event" fields with
    | some (.str "message") =>
      match jsonLookup "data" fields with
      | some (.obj dataFields) =>
        match jsonLookup "ppid" dataFields with
        | some (.num n) => some (.message n)
        | _ => none
      | _ => none
    | _ => none
  | _ => none

/-- The control-channel notification handler installed by
    `DataConsumer::new` (lines 315-346): a parse failure only logs
    (`error!`) and drops the notification; `DataProducerClose` fires the
    `data_producer_close` bag and closes the inner; the other variants
    fire their multi-fire bags without touching state. -/
def dcHandleNotice (s : DataConsumerState) (v : Json) : DataConsumerState × List DCEffect :=
  match parseDCNotice v with
  | some .dataProducerClose => dcApplyTrigger s .dataProducerCloseNotice
  | some .sctpSendBufferFull =>
      (s, s.handlers.sctpSendBufferFull.map DCEffect.firedSctpSendBufferFull)
  | some (.bufferedAmountLow n) =>
      (s, s.handlers.bufferedAmountLow.map fun cb => DCEffect.firedBufferedAmountLow cb n)
  | none => (s, [DCEffect.loggedParseError])

/-- The payload-channel notification handler installed by
    `DataConsumer::new` (lines 348-368): parse failures are logged and
    dropped; a `Message` notification fires the multi-fire `message` bag
    with the binary payload. -/
def dcHandlePayloadNotice (s : DataConsumerState) (v : Json) (payload : List Nat) :
    DataConsumerState × List DCEffect :=
  match parseDCPayloadNotice v with
  | some (.message ppid) =>
      (s, s.handlers.message.map fun cb => DCEffect.firedMessage cb ppid payload)
  | none => (s, [DCEffect.loggedPayloadParseError])

/-- Embeds `DataConsumer::on_close` (lines 580-586): the callback is added to the
    `close` bag, then, if the consumer is already closed, the bag is fired
    in place; the `HandlerId` of the added entry is returned either way. -/
def dcOnClose (s : DataConsumerState) (cb : Nat) : (DataConsumerState × List DCEffect) × Nat :=
  let bag := s.handlers.close ++ [cb]
  if s.closed then
    (({ s with handlers := { s.handlers with close := [] } },
        bag.map DCEffect.firedClose), cb)
  else
    (({ s with handlers := { s.handlers with close := bag } }, []), cb)

/-- Embeds `DataProducer::on_close` (lines 361-367): same shape. -/
def dpOnClose (s : DataProducerState) (cb : Nat) : (DataProducerState × List DPEffect) × Nat :=
  let bag := s.handlers.close ++ [cb]
  if s.closed then
    (({ s with handlers := { s.handlers with close := [] } },
        bag.map DPEffect.firedClose), cb)
  else
    (({ s with handlers := { s.handlers with close := bag } }, []), cb)

/-- Completion of the detached upstream close-request task spawned by
    `Inner::close` of `data_consumer.rs` (lines 238-246): an `Err` from
    `channel.request` is only logged (`error!`); the inner state is not
    touched either way. -/
def dcCloseRequestCompleted (s : DataConsumerState) (failed : Bool) :
    DataConsumerState × List DCEffect :=
  if failed then (s, [DCEffect.loggedCloseRequestError]) else (s, [])

/-- Completion of the detached close-request task of `data_producer.rs`
    (lines 170-178). -/
def dpCloseRequestCompleted (s : DataProducerState) (failed : Bool) :
    DataProducerState × List DPEffect :=
  if failed then (s, [DPEffect.loggedCloseRequestError]) else (s, [])

/-- The multi-fire registration methods of `DataConsumer`
    (`on_message`, `on_sctp_send_buffer_full`, `on_buffered_amount_low`)
    and the single-fire ones (`on_data_producer_close`,
    `on_transport_close`): each appends to its bag. -/
inductive DCRegisterKind where
  | message
  | sctpSendBufferFull
  | bufferedAmountLow
  | dataProducerClose
  | transportClose
deriving DecidableEq, Repr

/-- Append a callback to the bag selected by `k`. -/
def dcRegister (s : DataConsumerState) (k : DCRegisterKind) (cb : Nat) : DataConsumerState :=
  match k with
  | .message =>
      { s with handlers := { s.handlers with message := s.handlers.message ++ [cb] } }
  | .sctpSendBufferFull =>
      { s with handlers :=
          { s.handlers with sctpSendBufferFull := s.handlers.sctpSendBufferFull ++ [cb] } }
  | .bufferedAmountLow =>
      { s with handlers :=
          { s.handlers with bufferedAmountLow := s.handlers.bufferedAmountLow ++ [cb] } }
  | .dataProducerClose =>
      { s with handlers :=
          { s.handlers with dataProducerClose := s.handlers.dataProducerClose ++ [cb] } }
  | .transportClose =>
      { s with handlers :=
          { s.handlers with transportClose := s.handlers.transportClose ++ [cb] } }

/-- Every operation, notification or event that can reach a data
    consumer after creation (claim C3). -/
inductive DCOp where
  | trigger (t : DCCloseTrigger)
  | noticeArrived (v : Json)
  | payloadNoticeArrived (v : Json) (payload : List Nat)
  | register (k : DCRegisterKind) (cb : Nat)
  | registerOnClose (cb : Nat)
  | closeRequestCompleted (failed : Bool)

/-- One step of the data-consumer state machine. -/
def dcStep (s : DataConsumerState) : DCOp → DataConsumerState × List DCEffect
  | .trigger t => dcApplyTrigger s t
  | .noticeArrived v => dcHandleNotice s v
  | .payloadNoticeArrived v payload => dcHandlePayloadNotice s v payload
  | .register k cb => (dcRegister s k cb, [])
  | .registerOnClose cb => (dcOnClose s cb).1
  | .closeRequestCompleted failed => dcCloseRequestCompleted s failed

/-- Run a sequence of data-consumer operations. -/
def dcRunOps (s : DataConsumerState) : List DCOp → DataConsumerState × List DCEffect
  | [] => (s, [])
  | op :: ops =>
      let r1 := dcStep s op
      let r2 := dcRunOps r1.1 ops
      (r2.1, r1.2 ++ r2.2)

/-- Every operation or event that can reach a data producer after
    creation: close triggers, `on_transport_close` / `on_close`
    registration, and completion of the detached close request. -/
inductive DPOp where
  | trigger (t : DPCloseTrigger)
  | registerTransportClose (cb : Nat)
  | registerOnClose (cb : Nat)
  | closeRequestCompleted (failed : Bool)
deriving DecidableEq, Repr

/-- One step of the data-producer state machine. -/
def dpStep (s : DataProducerState) : DPOp → DataProducerState × List DPEffect
  | .trigger t => dpApplyTrigger s t
  | .registerTransportClose cb =>
      ({ s with handlers :=
          { s.handlers with transportClose := s.handlers.transportClose ++ [cb] } }, [])
  | .registerOnClose cb => (dpOnClose s cb).1
  | .closeRequestCompleted failed => dpCloseRequestCompleted s failed

/-- Run a sequence of data-producer operations. -/
def dpRunOps (s : DataProducerState) : List DPOp → DataProducerState × List DPEffect
  | [] => (s, [])
  | op :: ops =>
      let r1 := dpStep s op
      let r2 := dpRunOps r1.1 ops
      (r2.1, r1.2 ++ r2.2)

/-- The `RequestError` taxonomy of the control channel (`channel.rs`,
    re-exported by `worker.rs`), as listed in the spec's §7. -/
inductive RequestError where
  | channelClosed
  | messageTooLong
  | timedOut
  | remoteResponse (reason : String)
  | failedToParse
  | noData
deriving DecidableEq, Repr

/-- Embeds `CreateRouterError` of `worker.rs` (lines 198-204). -/
inductive CreateRouterError where
  | failedRtpCapabilitiesGeneration
  | request (e : RequestError)
deriving DecidableEq, Repr

/-- The `Router` value constructed by `Worker::create_router`; only the
    locally generated id and the generated RTP capabilities matter here
    (`router.rs` is not under `src/`; the constructor just stores them). -/
structure RouterModel where
  routerId : Nat
  rtpCapabilities : Nat
deriving DecidableEq, Repr

/-- Embeds `Worker::create_router` of `worker.rs` (lines 539-577).  The two
    fallible collaborators — `ortc::generate_router_rtp_capabilities` and
    `channel.request(WorkerCreateRouterRequest)` — enter as outcome
    parameters.  The result pairs the returned `Result` with the list of
    `new_router` callback invocations `(callback, router)` performed
    before returning. -/
def createRouter (newRouterCallbacks : List Nat) (routerId : Nat)
    (capOutcome : Except Unit Nat) (reqOutcome : Except RequestError Unit) :
    Except CreateRouterError RouterModel × List (Nat × RouterModel) :=
  match capOutcome with
  | .error () => (.error .failedRtpCapabilitiesGeneration, [])
  | .ok caps =>
    match reqOutcome with
    | .error e => (.error (.request e), [])
    | .ok () =>
      let router : RouterModel := { routerId := routerId, rtpCapabilities := caps }
      (.ok router, newRouterCallbacks.map fun cb => (cb, router))

/-- Startup failures of `Worker::new` (`io::Error`s raised in
    `Inner::wait_for_worker_process` and `Inner::wait_for_worker_ready`). -/
inductive WorkerStartError where
  | exitedBeforeReady
  | unexpectedFirstNotice
deriving DecidableEq, Repr

/-- Which of the two raced futures in `Inner::wait_for_worker_process`
    (lines 394-407) resolves first: the child's exit status, or the first
    notification delivered to the worker's pid target. -/
inductive ReadyOutcome where
  | processExited
  | firstNotice (v : Json)

/-- The local `Notification { Running }` enum of
    `Inner::wait_for_worker_ready` (serde internally tagged with
    `tag = "event"`, `rename_all = "lowercase"`). -/
def parseRunningNotice (v : Json) : Option Unit :=
  match v with
  | .obj fields =>
    match jsonLookup "event" fields with
    | some (.str "running") => some ()
    | _ => none
  | _ => none

/-- Embeds `Inner::wait_for_worker_process` (lines 394-407) racing
    `wait_for_worker_ready` (lines 409-447): exit first yields the
    "worker process exited before being ready" error; a first
    notification yields `Ok` when it parses as `Running` and the
    "unexpected first notification" error otherwise. -/
def waitForWorkerProcess (outcome : ReadyOutcome) : Except WorkerStartError Unit :=
  match outcome with
  | .processExited => .error .exitedBeforeReady
  | .firstNotice v =>
    match parseRunningNotice v with
    | some () => .ok ()
    | none => .error .unexpectedFirstNotice

/-- A usable worker session as produced by `Worker::new`. -/
structure WorkerSession where
  pid : Nat
deriving DecidableEq, Repr

/-- Embeds `Worker::new` (lines 487-496) via `Inner::new` (lines 243-370):
    `Inner::new` propagates any error of `wait_for_worker_process` with
    `?`, so no `Worker` is produced unless the ready wait succeeded. -/
def workerNew (pid : Nat) (outcome : ReadyOutcome) : Except WorkerStartError WorkerSession :=
  match waitForWorkerProcess outcome with
  | .error e => .error e
  | .ok () => .ok { pid := pid }

/-- Worker lifecycle state relevant to the `died`/`closed` events:
    whether the `Inner` is still alive (not yet dropped), whether the
    subprocess is still running, and the two pending one-shot callback
    vectors (`Handlers::died`, `Handlers::closed` in `worker.rs`). -/
structure WorkerLifeState where
  innerAlive : Bool
  processRunning : Bool
  diedCallbacks : List Nat
  closedCallbacks : List Nat
deriving DecidableEq, Repr

/-- Lifecycle events of a worker session: resolution of the exit-status
    future observed by the detached task in `Inner::new` (lines 343-367),
    and the drop of the last owning handle running `Drop for Inner`
    (lines 225-240). -/
inductive WorkerEvent where
  | subprocessExited (status : Int)
  | lastHandleDropped
deriving DecidableEq, Repr

/-- Observable worker lifecycle effects. -/
inductive WorkerEffect where
  | firedDied (cb : Nat) (status : Int)
  | firedClosed (cb : Nat)
  | sentSigterm
deriving DecidableEq, Repr

/-- One lifecycle step.  The exit observer upgrades its `Weak<Inner>`;
    only if the inner is still alive does it `mem::take` the `died`
    callbacks and fire each with the exit status.  `Drop for Inner`
    `mem::take`s and fires the `closed` callbacks, then sends `SIGTERM`
    when `child.try_status()` reports the process still running. -/
def workerStep (s : WorkerLifeState) : WorkerEvent → WorkerLifeState × List WorkerEffect
  | .subprocessExited status =>
      if s.innerAlive then
        ({ s with processRunning := false, diedCallbacks := [] },
          s.diedCallbacks.map fun cb => WorkerEffect.firedDied cb status)
      else ({ s with processRunning := false }, [])
  | .lastHandleDropped =>
      if s.innerAlive then
        ({ s with innerAlive := false, closedCallbacks := [] },
          s.closedCallbacks.map WorkerEffect.firedClosed
            ++ if s.processRunning then [WorkerEffect.sentSigterm] else [])
      else (s, [])

/-- Run a sequence of worker lifecycle events. -/
def workerRun (s : WorkerLifeState) : List WorkerEvent → WorkerLifeState × List WorkerEffect
  | [] => (s, [])
  | ev :: evs =>
      let r1 := workerStep s ev
      let r2 := workerRun r1.1 evs
      (r2.1, r1.2 ++ r2.2)

/-- The `died` callbacks fired in a worker trace (tokens only). -/
def firedDiedList (effs : List WorkerEffect) : List Nat :=
  effs.filterMap fun e =>
    match e with
    | .firedDied cb _ => some cb
    | _ => none

/-- The `closed` callbacks fired in a worker trace. -/
def firedClosedList (effs : List WorkerEffect) : List Nat :=
  effs.filterMap fun e =>
    match e with
    | .firedClosed cb => some cb
    | _ => none

/-- Modelled from the spec: the Control Channel implementation
    (`src/rust/src/worker/channel.rs`) is not under `src/` — only its
    re-exports and callers are.  Per spec §4.2 and §7, the channel keeps
    a closed flag and a pending-request table; on channel closure every
    still-pending request is failed with `ChannelClosed`, and a request
    issued on a closed channel fails immediately with `ChannelClosed`
    instead of recording a pending entry and writing a frame. -/
structure ChannelModel where
  closed : Bool
  pending : List Nat
deriving DecidableEq, Repr

/-- Observable channel effects: a caller completing with an error, and a
    frame being written for a newly issued request. -/
inductive ChannelEffect where
  | requestFailed (id : Nat) (e : RequestError)
  | sentRequestFrame (id : Nat)
deriving DecidableEq, Repr

/-- Modelled from the spec: channel closure (subprocess exit, explicit
    shutdown, or unrecoverable read error) fails every pending request
    with `ChannelClosed`, empties the pending table and marks the channel
    closed. -/
def channelCloseAll (s : ChannelModel) : ChannelModel × List ChannelEffect :=
  ({ closed := true, pending := [] },
    s.pending.map fun id => ChannelEffect.requestFailed id RequestError.channelClosed)

/-- Modelled from the spec: issuing a request allocates a correlation id;
    on a closed channel the caller fails immediately with
    `ChannelClosed`, otherwise a pending entry is recorded and one frame
    is written. -/
def channelIssueRequest (s : ChannelModel) (id : Nat) : ChannelModel × List ChannelEffect :=
  if s.closed then (s, [ChannelEffect.requestFailed id RequestError.channelClosed])
  else ({ s with pending := s.pending ++ [id] }, [ChannelEffect.sentRequestFrame id])

/-! ### Helper lemmas -/

theorem dcFiredCloseList_append (a b : List DCEffect) :
    dcFiredCloseList (a ++ b) = dcFiredCloseList a ++ dcFiredCloseList b := by
  simp [dcFiredCloseList]

theorem dcCloseRequestCount_append (a b : List DCEffect) :
    dcCloseRequestCount (a ++ b) = dcCloseRequestCount a + dcCloseRequestCount b := by
  simp [dcCloseRequestCount]

theorem dpFiredCloseList_append (a b : List DPEffect) :
    dpFiredCloseList (a ++ b) = dpFiredCloseList a ++ dpFiredCloseList b := by
  simp [dpFiredCloseList]

theorem dpCloseRequestCount_append (a b : List DPEffect) :
    dpCloseRequestCount (a ++ b) = dpCloseRequestCount a + dpCloseRequestCount b := by
  simp [dpCloseRequestCount]

@[simp]
theorem dcFiredCloseList_map_close (l : List Nat) :
    dcFiredCloseList (l.map DCEffect.firedClose) = l := by
  induction l with
  | nil => rfl
  | cons a l ih => exact congrArg (List.cons a) ih

@[simp]
theorem dcFiredCloseList_map_transportClose (l : List Nat) :
    dcFiredCloseList (l.map DCEffect.firedTransportClose) = [] := by
  induction l with
  | nil => rfl
  | cons a l ih => exact ih

@[simp]
theorem dcFiredCloseList_map_dataProducerClose (l : List Nat) :
    dcFiredCloseList (l.map DCEffect.firedDataProducerClose) = [] := by
  induction l with
  | nil => rfl
  | cons a l ih => exact ih

@[simp]
theorem dcCloseRequestCount_map_close (l : List Nat) :
    dcCloseRequestCount (l.map DCEffect.firedClose) = 0 := by
  induction l with
  | nil => rfl
  | cons a l ih => exact ih

@[simp]
theorem dcCloseRequestCount_map_transportClose (l : List Nat) :
    dcCloseRequestCount (l.map DCEffect.firedTransportClose) = 0 := by
  induction l with
  | nil => rfl
  | cons a l ih => exact ih

@[simp]
theorem dcCloseRequestCount_map_dataProducerClose (l : List Nat) :
    dcCloseRequestCount (l.map DCEffect.firedDataProducerClose) = 0 := by
  induction l with
  | nil => rfl
  | cons a l ih => exact ih

@[simp]
theorem dpFiredCloseList_map_close (l : List Nat) :
    dpFiredCloseList (l.map DPEffect.firedClose) = l := by
  induction l with
  | nil => rfl
  | cons a l ih => exact congrArg (List.cons a) ih

@[simp]
theorem dpFiredCloseList_map_transportClose (l : List Nat) :
    dpFiredCloseList (l.map DPEffect.firedTransportClose) = [] := by
  induction l with
  | nil => rfl
  | cons a l ih => exact ih

@[simp]
theorem dpCloseRequestCount_map_close (l : List Nat) :
    dpCloseRequestCount (l.map DPEffect.firedClose) = 0 := by
  induction l with
  | nil => rfl
  | cons a l ih => exact ih

@[simp]
theorem dpCloseRequestCount_map_transportClose (l : List Nat) :
    dpCloseRequestCount (l.map DPEffect.firedTransportClose) = 0 := by
  induction l with
  | nil => rfl
  | cons a l ih => exact ih

@[simp]
theorem dcFiredCloseList_singleton_request (i : DataConsumerInternal) :
    dcFiredCloseList [DCEffect.spawnedCloseRequest i] = [] := rfl

@[simp]
theorem dcCloseRequestCount_singleton_request (i : DataConsumerInternal) :
    dcCloseRequestCount [DCEffect.spawnedCloseRequest i] = 1 := rfl

@[simp]
theorem dcFiredCloseList_nil : dcFiredCloseList [] = [] := rfl

@[simp]
theorem dcCloseRequestCount_nil : dcCloseRequestCount [] = 0 := rfl

@[simp]
theorem dpFiredCloseList_singleton_request (i : DataProducerInternal) :
    dpFiredCloseList [DPEffect.spawnedCloseRequest i] = [] := rfl

@[simp]
theorem dpCloseRequestCount_singleton_request (i : DataProducerInternal) :
    dpCloseRequestCount [DPEffect.spawnedCloseRequest i] = 1 := rfl

@[simp]
theorem dpFiredCloseList_nil : dpFiredCloseList [] = [] := rfl

@[simp]
theorem dpCloseRequestCount_nil : dpCloseRequestCount [] = 0 := rfl

@[simp]
theorem dcFiredCloseList_cons_request (i : DataConsumerInternal) (l : List DCEffect) :
    dcFiredCloseList (DCEffect.spawnedCloseRequest i :: l) = dcFiredCloseList l := rfl

@[simp]
theorem dcFiredCloseList_cons_close (cb : Nat) (l : List DCEffect) :
    dcFiredCloseList (DCEffect.firedClose cb :: l) = cb :: dcFiredCloseList l := rfl

@[simp]
theorem dpFiredCloseList_cons_request (i : DataProducerInternal) (l : List DPEffect) :
    dpFiredCloseList (DPEffect.spawnedCloseRequest i :: l) = dpFiredCloseList l := rfl

@[simp]
theorem dpFiredCloseList_cons_close (cb : Nat) (l : List DPEffect) :
    dpFiredCloseList (DPEffect.firedClose cb :: l) = cb :: dpFiredCloseList l := rfl

/-- Any single trigger on an open data consumer closes it, empties the
    `close` bag, fires exactly the registered `close` callbacks and
    spawns exactly one upstream close request. -/
theorem dcApplyTrigger_open (s : DataConsumerState) (t : DCCloseTrigger)
    (h : s.closed = false) :
    (dcApplyTrigger s t).1.closed = true
    ∧ (dcApplyTrigger s t).1.handlers.close = []
    ∧ dcFiredCloseList (dcApplyTrigger s t).2 = s.handlers.close
    ∧ dcCloseRequestCount (dcApplyTrigger s t).2 = 1 := by
  cases t <;>
    simp [dcApplyTrigger, dataConsumerClose, h, dcFiredCloseList_append,
      dcCloseRequestCount_append]

/-- Once a data consumer is closed with an empty `close` bag, no trigger
    fires a `close` callback or spawns another close request, and the
    invariant is preserved. -/
theorem dcApplyTrigger_closed (s : DataConsumerState) (t : DCCloseTrigger)
    (h : s.closed = true) (he : s.handlers.close = []) :
    (dcApplyTrigger s t).1.closed = true
    ∧ (dcApplyTrigger s t).1.handlers.close = []
    ∧ dcFiredCloseList (dcApplyTrigger s t).2 = []
    ∧ dcCloseRequestCount (dcApplyTrigger s t).2 = 0 := by
  cases t <;>
    simp [dcApplyTrigger, dataConsumerClose, h, he, dcFiredCloseList_append,
      dcCloseRequestCount_append]

/-- The closed-with-empty-bag invariant persists over any further
    trigger sequence, with no `close` callbacks fired and no close
    requests spawned. -/
theorem dcRunTriggers_closed (ts : List DCCloseTrigger) :
    ∀ s : DataConsumerState, s.closed = true → s.handlers.close = [] →
    (dcRunTriggers s ts).1.closed = true
    ∧ (dcRunTriggers s ts).1.handlers.close = []
    ∧ dcFiredCloseList (dcRunTriggers s ts).2 = []
    ∧ dcCloseRequestCount (dcRunTriggers s ts).2 = 0 := by
  induction ts with
  | nil =>
    intro s h he
    exact ⟨h, he, by simp [dcRunTriggers, dcFiredCloseList, dcCloseRequestCount],
      by simp [dcRunTriggers, dcCloseRequestCount]⟩
  | cons t ts ih =>
    intro s h he
    obtain ⟨h1, h2, h3, h4⟩ := dcApplyTrigger_closed s t h he
    obtain ⟨g1, g2, g3, g4⟩ := ih (dcApplyTrigger s t).1 h1 h2
    refine ⟨g1, g2, ?_, ?_⟩
    · simp [dcRunTriggers, dcFiredCloseList_append, h3, g3]
    · simp [dcRunTriggers, dcCloseRequestCount_append, h4, g4]

/-- Any single trigger on an open data producer closes it, empties the
    `close` bag, fires exactly the registered `close` callbacks and
    spawns exactly one upstream close request. -/
theorem dpApplyTrigger_open (s : DataProducerState) (t : DPCloseTrigger)
    (h : s.closed = false) :
    (dpApplyTrigger s t).1.closed = true
    ∧ (dpApplyTrigger s t).1.handlers.close = []
    ∧ dpFiredCloseList (dpApplyTrigger s t).2 = s.handlers.close
    ∧ dpCloseRequestCount (dpApplyTrigger s t).2 = 1 := by
  cases t <;>
    simp [dpApplyTrigger, dataProducerClose, h, dpFiredCloseList_append,
      dpCloseRequestCount_append]

/-- Once a data producer is closed with an empty `close` bag, no trigger
    fires a `close` callback or spawns another close request. -/
theorem dpApplyTrigger_closed (s : DataProducerState) (t : DPCloseTrigger)
    (h : s.closed = true) (he : s.handlers.close = []) :
    (dpApplyTrigger s t).1.closed = true
    ∧ (dpApplyTrigger s t).1.handlers.close = []
    ∧ dpFiredCloseList (dpApplyTrigger s t).2 = []
    ∧ dpCloseRequestCount (dpApplyTrigger s t).2 = 0 := by
  cases t <;>
    simp [dpApplyTrigger, dataProducerClose, h, he, dpFiredCloseList_append,
      dpCloseRequestCount_append]

/-- Data-producer analogue of `dcRunTriggers_closed`. -/
theorem dpRunTriggers_closed (ts : List DPCloseTrigger) :
    ∀ s : DataProducerState, s.closed = true → s.handlers.close = [] →
    (dpRunTriggers s ts).1.closed = true
    ∧ (dpRunTriggers s ts).1.handlers.close = []
    ∧ dpFiredCloseList (dpRunTriggers s ts).2 = []
    ∧ dpCloseRequestCount (dpRunTriggers s ts).2 = 0 := by
  induction ts with
  | nil =>
    intro s h he
    exact ⟨h, he, by simp [dpRunTriggers, dpFiredCloseList, dpCloseRequestCount],
      by simp [dpRunTriggers, dpCloseRequestCount]⟩
  | cons t ts ih =>
    intro s h he
    obtain ⟨h1, h2, h3, h4⟩ := dpApplyTrigger_closed s t h he
    obtain ⟨g1, g2, g3, g4⟩ := ih (dpApplyTrigger s t).1 h1 h2
    refine ⟨g1, g2, ?_, ?_⟩
    · simp [dpRunTriggers, dpFiredCloseList_append, h3, g3]
    · simp [dpRunTriggers, dpCloseRequestCount_append, h4, g4]



/-! ### Concrete sample states used by witnesses and counterexamples -/

/-- A concrete open data consumer. -/
def dcSampleA : DataConsumerState :=
  { internal := { routerId := 1, transportId := 2, dataConsumerId := 3, dataProducerId := 4 }
    closed := false
    handlers := { message := [], sctpSendBufferFull := [], bufferedAmountLow := []
                  dataProducerClose := [7], transportClose := [8], close := [9] } }

/-- A concrete open data producer. -/
def dpSampleA : DataProducerState :=
  { internal := { routerId := 1, transportId := 2, dataProducerId := 4 }
    closed := false
    handlers := { transportClose := [11], close := [12] } }

/-! ### C1 -/

/-- C1: triggering close any number of times N>1, by any combination of
    triggers, has the same observable effect as closing exactly once:
    the state ends closed, the single-fire `close` handlers are invoked
    exactly as a single close would invoke them (each exactly once), and
    exactly as many upstream close requests are spawned as by a single
    close.  Stated for both `DataConsumer` and `DataProducer`; arbitrary
    interleavings of concurrent triggers are serialised by the atomic
    swap on `closed`, hence modelled as trigger sequences. -/
theorem claim_close_idempotent
    (sc : DataConsumerState) (sp : DataProducerState)
    (tsc : List DCCloseTrigger) (tsp : List DPCloseTrigger)
    (hc : sc.closed = false) (hp : sp.closed = false)
    (hnc : tsc ≠ []) (hnp : tsp ≠ []) :
    ((dcRunTriggers sc tsc).1.closed = true
      ∧ dcFiredCloseList (dcRunTriggers sc tsc).2 = dcFiredCloseList (dataConsumerClose sc).2
      ∧ dcCloseRequestCount (dcRunTriggers sc tsc).2
          = dcCloseRequestCount (dataConsumerClose sc).2)
    ∧ ((dpRunTriggers sp tsp).1.closed = true
      ∧ dpFiredCloseList (dpRunTriggers sp tsp).2 = dpFiredCloseList (dataProducerClose sp).2
      ∧ dpCloseRequestCount (dpRunTriggers sp tsp).2
          = dpCloseRequestCount (dataProducerClose sp).2) := by
  constructor
  · cases tsc with
    | nil => exact absurd rfl hnc
    | cons t ts =>
      obtain ⟨h1, h2, h3, h4⟩ := dcApplyTrigger_open sc t hc
      obtain ⟨g1, g2, g3, g4⟩ := dcRunTriggers_closed ts (dcApplyTrigger sc t).1 h1 h2
      refine ⟨g1, ?_, ?_⟩
      · simp [dcRunTriggers, dcFiredCloseList_append, h3, g3, dataConsumerClose, hc]
      · simp [dcRunTriggers, dcCloseRequestCount_append, h4, g4, dataConsumerClose, hc]
  · cases tsp with
    | nil => exact absurd rfl hnp
    | cons t ts =>
      obtain ⟨h1, h2, h3, h4⟩ := dpApplyTrigger_open sp t hp
      obtain ⟨g1, g2, g3, g4⟩ := dpRunTriggers_closed ts (dpApplyTrigger sp t).1 h1 h2
      refine ⟨g1, ?_, ?_⟩
      · simp [dpRunTriggers, dpFiredCloseList_append, h3, g3, dataProducerClose, hp]
      · simp [dpRunTriggers, dpCloseRequestCount_append, h4, g4, dataProducerClose, hp]

/-- Witness for C1: three mixed triggers on a data consumer and two on a
    data producer behave exactly like a single close. -/
theorem claim_close_idempotent_witness :
    (dcSampleA.closed = false ∧ dpSampleA.closed = false
      ∧ ([DCCloseTrigger.explicitClose, DCCloseTrigger.transportClose,
          DCCloseTrigger.dataProducerCloseNotice] ≠ ([] : List DCCloseTrigger))
      ∧ ([DPCloseTrigger.dropLastHandle, DPCloseTrigger.transportClose]
          ≠ ([] : List DPCloseTrigger)))
    ∧ (((dcRunTriggers dcSampleA
          [DCCloseTrigger.explicitClose, DCCloseTrigger.transportClose,
            DCCloseTrigger.dataProducerCloseNotice]).1.closed = true
        ∧ dcFiredCloseList (dcRunTriggers dcSampleA
            [DCCloseTrigger.explicitClose, DCCloseTrigger.transportClose,
              DCCloseTrigger.dataProducerCloseNotice]).2
            = dcFiredCloseList (dataConsumerClose dcSampleA).2
        ∧ dcCloseRequestCount (dcRunTriggers dcSampleA
            [DCCloseTrigger.explicitClose, DCCloseTrigger.transportClose,
              DCCloseTrigger.dataProducerCloseNotice]).2
            = dcCloseRequestCount (dataConsumerClose dcSampleA).2)
      ∧ ((dpRunTriggers dpSampleA
            [DPCloseTrigger.dropLastHandle, DPCloseTrigger.transportClose]).1.closed = true
        ∧ dpFiredCloseList (dpRunTriggers dpSampleA
            [DPCloseTrigger.dropLastHandle, DPCloseTrigger.transportClose]).2
            = dpFiredCloseList (dataProducerClose dpSampleA).2
        ∧ dpCloseRequestCount (dpRunTriggers dpSampleA
            [DPCloseTrigger.dropLastHandle, DPCloseTrigger.transportClose]).2
            = dpCloseRequestCount (dataProducerClose dpSampleA).2)) :=
  ⟨⟨rfl, rfl, by decide, by decide⟩,
    claim_close_idempotent dcSampleA dpSampleA
      [DCCloseTrigger.explicitClose, DCCloseTrigger.transportClose,
        DCCloseTrigger.dataProducerCloseNotice]
      [DPCloseTrigger.dropLastHandle, DPCloseTrigger.transportClose]
      rfl rfl (by decide) (by decide)⟩


/-! ### C2 -/

/-- Counterexample to C2: on the sample data consumer, the parent
    transport's close cascade does close the child and fire its `close`
    handler, but `Inner::close` unconditionally spawns the upstream
    `DataConsumerCloseRequest`, so "no close request for the child is
    sent upstream" is false: the request count is 1, not 0. -/
theorem claim_parent_close_no_upstream_cex :
    ¬ ((dcApplyTrigger dcSampleA DCCloseTrigger.transportClose).1.closed = true
      ∧ dcFiredCloseList (dcApplyTrigger dcSampleA DCCloseTrigger.transportClose).2 = [9]
      ∧ dcCloseRequestCount (dcApplyTrigger dcSampleA DCCloseTrigger.transportClose).2 = 0) := by
  decide

/-- C2 amended: if the parent transport closes before the child is ever
    explicitly closed, the child reaches the closed state and its `close`
    event fires locally — but a best-effort close request for the child
    IS still spawned upstream (exactly one), because `Inner::close` sends
    it on every first close regardless of the trigger.  Stated for both
    `DataConsumer` and `DataProducer`. -/
theorem claim_parent_close_cascades
    (sc : DataConsumerState) (sp : DataProducerState)
    (hc : sc.closed = false) (hp : sp.closed = false) :
    ((dcApplyTrigger sc DCCloseTrigger.transportClose).1.closed = true
      ∧ dcFiredCloseList (dcApplyTrigger sc DCCloseTrigger.transportClose).2
          = sc.handlers.close
      ∧ dcCloseRequestCount (dcApplyTrigger sc DCCloseTrigger.transportClose).2 = 1)
    ∧ ((dpApplyTrigger sp DPCloseTrigger.transportClose).1.closed = true
      ∧ dpFiredCloseList (dpApplyTrigger sp DPCloseTrigger.transportClose).2
          = sp.handlers.close
      ∧ dpCloseRequestCount (dpApplyTrigger sp DPCloseTrigger.transportClose).2 = 1) := by
  obtain ⟨h1, _, h3, h4⟩ := dcApplyTrigger_open sc DCCloseTrigger.transportClose hc
  obtain ⟨g1, _, g3, g4⟩ := dpApplyTrigger_open sp DPCloseTrigger.transportClose hp
  exact ⟨⟨h1, h3, h4⟩, ⟨g1, g3, g4⟩⟩

/-- Witness for the amended C2 at the sample states. -/
theorem claim_parent_close_cascades_witness :
    (dcSampleA.closed = false ∧ dpSampleA.closed = false)
    ∧ (((dcApplyTrigger dcSampleA DCCloseTrigger.transportClose).1.closed = true
      ∧ dcFiredCloseList (dcApplyTrigger dcSampleA DCCloseTrigger.transportClose).2
          = dcSampleA.handlers.close
      ∧ dcCloseRequestCount (dcApplyTrigger dcSampleA DCCloseTrigger.transportClose).2 = 1)
    ∧ ((dpApplyTrigger dpSampleA DPCloseTrigger.transportClose).1.closed = true
      ∧ dpFiredCloseList (dpApplyTrigger dpSampleA DPCloseTrigger.transportClose).2
          = dpSampleA.handlers.close
      ∧ dpCloseRequestCount (dpApplyTrigger dpSampleA DPCloseTrigger.transportClose).2 = 1)) :=
  ⟨⟨rfl, rfl⟩, claim_parent_close_cascades dcSampleA dpSampleA rfl rfl⟩


/-! ### C3 -/

/-- Any close trigger leaves a closed data consumer closed. -/
theorem dcApplyTrigger_preserves_closed (s : DataConsumerState) (t : DCCloseTrigger)
    (h : s.closed = true) : (dcApplyTrigger s t).1.closed = true := by
  cases t <;> simp [dcApplyTrigger, dataConsumerClose, h]

/-- Any single operation leaves a closed data consumer closed. -/
theorem dcStep_preserves_closed (s : DataConsumerState) (op : DCOp)
    (h : s.closed = true) : (dcStep s op).1.closed = true := by
  cases op with
  | trigger t => exact dcApplyTrigger_preserves_closed s t h
  | noticeArrived v =>
    show (dcHandleNotice s v).1.closed = true
    cases hv : parseDCNotice v with
    | none => simp [dcHandleNotice, hv, h]
    | some n =>
      cases n with
      | dataProducerClose =>
        simpa [dcHandleNotice, hv] using
          dcApplyTrigger_preserves_closed s DCCloseTrigger.dataProducerCloseNotice h
      | sctpSendBufferFull => simp [dcHandleNotice, hv, h]
      | bufferedAmountLow n => simp [dcHandleNotice, hv, h]
  | payloadNoticeArrived v payload =>
    show (dcHandlePayloadNotice s v payload).1.closed = true
    cases hv : parseDCPayloadNotice v with
    | none => simp [dcHandlePayloadNotice, hv, h]
    | some n => cases n with
      | message ppid => simp [dcHandlePayloadNotice, hv, h]
  | register k cb => cases k <;> simp [dcStep, dcRegister, h]
  | registerOnClose cb => simp [dcStep, dcOnClose, h]
  | closeRequestCompleted failed => cases failed <;> simp [dcStep, dcCloseRequestCompleted, h]

/-- Any close trigger leaves a closed data producer closed. -/
theorem dpApplyTrigger_preserves_closed (s : DataProducerState) (t : DPCloseTrigger)
    (h : s.closed = true) : (dpApplyTrigger s t).1.closed = true := by
  cases t <;> simp [dpApplyTrigger, dataProducerClose, h]

/-- Any single operation leaves a closed data producer closed. -/
theorem dpStep_preserves_closed (s : DataProducerState) (op : DPOp)
    (h : s.closed = true) : (dpStep s op).1.closed = true := by
  cases op with
  | trigger t => exact dpApplyTrigger_preserves_closed s t h
  | registerTransportClose cb => simp [dpStep, h]
  | registerOnClose cb => simp [dpStep, dpOnClose, h]
  | closeRequestCompleted failed => cases failed <;> simp [dpStep, dpCloseRequestCompleted, h]

/-- Closedness is preserved by any operation sequence (data consumer). -/
theorem dcRunOps_preserves_closed (ops : List DCOp) :
    ∀ s : DataConsumerState, s.closed = true → (dcRunOps s ops).1.closed = true := by
  induction ops with
  | nil => intro s h; exact h
  | cons op ops ih =>
    intro s h
    exact ih (dcStep s op).1 (dcStep_preserves_closed s op h)

/-- Closedness is preserved by any operation sequence (data producer). -/
theorem dpRunOps_preserves_closed (ops : List DPOp) :
    ∀ s : DataProducerState, s.closed = true → (dpRunOps s ops).1.closed = true := by
  induction ops with
  | nil => intro s h; exact h
  | cons op ops ih =>
    intro s h
    exact ih (dpStep s op).1 (dpStep_preserves_closed s op h)

/-- C3: the closed state is terminal.  Once `closed()` returns true, no
    subsequent operation, notification, registration, close trigger or
    close-request completion ever makes it return false again, for both
    `DataConsumer` and `DataProducer`. -/
theorem claim_closed_is_terminal
    (sc : DataConsumerState) (sp : DataProducerState)
    (opsC : List DCOp) (opsP : List DPOp)
    (hc : sc.closed = true) (hp : sp.closed = true) :
    (dcRunOps sc opsC).1.closed = true ∧ (dpRunOps sp opsP).1.closed = true :=
  ⟨dcRunOps_preserves_closed opsC sc hc, dpRunOps_preserves_closed opsP sp hp⟩

/-- A concrete closed data consumer. -/
def dcSampleClosed : DataConsumerState :=
  { internal := { routerId := 1, transportId := 2, dataConsumerId := 3, dataProducerId := 4 }
    closed := true
    handlers := { message := [21], sctpSendBufferFull := [], bufferedAmountLow := []
                  dataProducerClose := [], transportClose := [], close := [] } }

/-- A concrete closed data producer. -/
def dpSampleClosed : DataProducerState :=
  { internal := { routerId := 1, transportId := 2, dataProducerId := 4 }
    closed := true
    handlers := { transportClose := [], close := [] } }

/-- Witness for C3: a mixed operation sequence (notification, handler
    registration, cascade trigger, close-request failure) on closed
    resources never reopens them. -/
theorem claim_closed_is_terminal_witness :
    (dcSampleClosed.closed = true ∧ dpSampleClosed.closed = true)
    ∧ ((dcRunOps dcSampleClosed
          [DCOp.noticeArrived (Json.obj [("event", Json.str "dataproducerclose")]),
            DCOp.registerOnClose 5, DCOp.trigger DCCloseTrigger.transportClose,
            DCOp.closeRequestCompleted true]).1.closed = true
      ∧ (dpRunOps dpSampleClosed
          [DPOp.registerOnClose 6, DPOp.trigger DPCloseTrigger.dropLastHandle,
            DPOp.closeRequestCompleted true]).1.closed = true) :=
  ⟨⟨rfl, rfl⟩,
    claim_closed_is_terminal dcSampleClosed dpSampleClosed
      [DCOp.noticeArrived (Json.obj [("event", Json.str "dataproducerclose")]),
        DCOp.registerOnClose 5, DCOp.trigger DCCloseTrigger.transportClose,
        DCOp.closeRequestCompleted true]
      [DPOp.registerOnClose 6, DPOp.trigger DPCloseTrigger.dropLastHandle,
        DPOp.closeRequestCompleted true]
      rfl rfl⟩


/-! ### C4 -/

/-- C4: a failure of the best-effort upstream close request is only
    logged, never escalated: the completion of the detached request task
    leaves the resource state untouched (in particular `closed` stays
    true) and fires no handler; and the `close` handlers have already
    fired before the request is even spawned (they precede the
    `spawnedCloseRequest` effect in the close trace).  `Inner::close`
    itself returns no error (it is a total state transformer).  Stated
    for both resources. -/
theorem claim_close_failure_swallowed
    (sc s0c : DataConsumerState) (sp s0p : DataProducerState)
    (hc : sc.closed = true) (hp : sp.closed = true)
    (h0c : s0c.closed = false) (h0p : s0p.closed = false) :
    ((dcCloseRequestCompleted sc true).1 = sc
      ∧ (dcCloseRequestCompleted sc true).1.closed = true
      ∧ (dcCloseRequestCompleted sc true).2 = [DCEffect.loggedCloseRequestError]
      ∧ dcFiredCloseList (dcCloseRequestCompleted sc true).2 = [])
    ∧ ((dpCloseRequestCompleted sp true).1 = sp
      ∧ (dpCloseRequestCompleted sp true).1.closed = true
      ∧ (dpCloseRequestCompleted sp true).2 = [DPEffect.loggedCloseRequestError]
      ∧ dpFiredCloseList (dpCloseRequestCompleted sp true).2 = [])
    ∧ ((dataConsumerClose s0c).2
        = s0c.handlers.close.map DCEffect.firedClose
          ++ [DCEffect.spawnedCloseRequest s0c.internal]
      ∧ (dataProducerClose s0p).2
        = s0p.handlers.close.map DPEffect.firedClose
          ++ [DPEffect.spawnedCloseRequest s0p.internal]) := by
  refine ⟨⟨rfl, ?_, rfl, rfl⟩, ⟨rfl, ?_, rfl, rfl⟩, ?_, ?_⟩
  · simpa [dcCloseRequestCompleted] using hc
  · simpa [dpCloseRequestCompleted] using hp
  · simp [dataConsumerClose, h0c]
  · simp [dataProducerClose, h0p]

/-- Witness for C4 at the sample states. -/
theorem claim_close_failure_swallowed_witness :
    (dcSampleClosed.closed = true ∧ dpSampleClosed.closed = true
      ∧ dcSampleA.closed = false ∧ dpSampleA.closed = false)
    ∧ (((dcCloseRequestCompleted dcSampleClosed true).1 = dcSampleClosed
      ∧ (dcCloseRequestCompleted dcSampleClosed true).1.closed = true
      ∧ (dcCloseRequestCompleted dcSampleClosed true).2 = [DCEffect.loggedCloseRequestError]
      ∧ dcFiredCloseList (dcCloseRequestCompleted dcSampleClosed true).2 = [])
    ∧ ((dpCloseRequestCompleted dpSampleClosed true).1 = dpSampleClosed
      ∧ (dpCloseRequestCompleted dpSampleClosed true).1.closed = true
      ∧ (dpCloseRequestCompleted dpSampleClosed true).2 = [DPEffect.loggedCloseRequestError]
      ∧ dpFiredCloseList (dpCloseRequestCompleted dpSampleClosed true).2 = [])
    ∧ ((dataConsumerClose dcSampleA).2
        = dcSampleA.handlers.close.map DCEffect.firedClose
          ++ [DCEffect.spawnedCloseRequest dcSampleA.internal]
      ∧ (dataProducerClose dpSampleA).2
        = dpSampleA.handlers.close.map DPEffect.firedClose
          ++ [DPEffect.spawnedCloseRequest dpSampleA.internal])) :=
  ⟨⟨rfl, rfl, rfl, rfl⟩,
    claim_close_failure_swallowed dcSampleClosed dcSampleA dpSampleClosed dpSampleA
      rfl rfl rfl rfl⟩

/-! ### C5 -/

/-- C5: `Worker::create_router` returns a `Router` only after the
    `worker.createRouter` request succeeds.  On request failure it
    returns `CreateRouterError::Request`, constructs no `Router` and
    invokes no `new_router` callback; on success every registered
    `new_router` callback is invoked with the new `Router`. -/
theorem claim_create_router_gate
    (cbs : List Nat) (rid caps : Nat) (e : RequestError) :
    createRouter cbs rid (Except.ok caps) (Except.error e)
        = (Except.error (CreateRouterError.request e), [])
    ∧ createRouter cbs rid (Except.ok caps) (Except.ok ())
        = (Except.ok { routerId := rid, rtpCapabilities := caps },
            cbs.map fun cb => (cb, ({ routerId := rid, rtpCapabilities := caps } : RouterModel))) :=
  ⟨rfl, rfl⟩

/-! ### C6 -/

/-- C6: an inbound notification whose body fails to parse as the
    expected notification type is logged and dropped: no event handler
    fires, the consumer state (including `closed`) is unchanged, and
    subsequent notifications — on either channel — are handled exactly as
    if the malformed one had never arrived. -/
theorem claim_parse_failure_dropped
    (s : DataConsumerState) (v v2 v3 : Json) (payload payload2 : List Nat)
    (h : parseDCNotice v = none) (hpv : parseDCPayloadNotice v = none) :
    dcHandleNotice s v = (s, [DCEffect.loggedParseError])
    ∧ dcHandlePayloadNotice s v payload = (s, [DCEffect.loggedPayloadParseError])
    ∧ (dcHandleNotice s v).1.closed = s.closed
    ∧ dcHandleNotice (dcHandleNotice s v).1 v2 = dcHandleNotice s v2
    ∧ dcHandlePayloadNotice (dcHandleNotice s v).1 v3 payload2
        = dcHandlePayloadNotice s v3 payload2 := by
  have h1 : dcHandleNotice s v = (s, [DCEffect.loggedParseError]) := by
    simp [dcHandleNotice, h]
  have h2 : dcHandlePayloadNotice s v payload = (s, [DCEffect.loggedPayloadParseError]) := by
    simp [dcHandlePayloadNotice, hpv]
  refine ⟨h1, h2, ?_, ?_, ?_⟩ <;> rw [h1]

/-- Witness for C6: a malformed body (a bare string) is dropped with a
    log, and a subsequent well-formed `sctpsendbufferfull` notification
    is still delivered. -/
theorem claim_parse_failure_dropped_witness :
    (parseDCNotice (Json.str "garbage") = none
      ∧ parseDCPayloadNotice (Json.str "garbage") = none)
    ∧ (dcHandleNotice dcSampleA (Json.str "garbage")
        = (dcSampleA, [DCEffect.loggedParseError])
    ∧ dcHandlePayloadNotice dcSampleA (Json.str "garbage") [1, 2]
        = (dcSampleA, [DCEffect.loggedPayloadParseError])
    ∧ (dcHandleNotice dcSampleA (Json.str "garbage")).1.closed = dcSampleA.closed
    ∧ dcHandleNotice (dcHandleNotice dcSampleA (Json.str "garbage")).1
        (Json.obj [("event", Json.str "sctpsendbufferfull")])
        = dcHandleNotice dcSampleA (Json.obj [("event", Json.str "sctpsendbufferfull")])
    ∧ dcHandlePayloadNotice (dcHandleNotice dcSampleA (Json.str "garbage")).1
        (Json.obj [("event", Json.str "message"), ("data", Json.obj [("ppid", Json.num 51)])])
        [3, 4]
        = dcHandlePayloadNotice dcSampleA
            (Json.obj [("event", Json.str "message"), ("data", Json.obj [("ppid", Json.num 51)])])
            [3, 4]) :=
  ⟨⟨rfl, rfl⟩,
    claim_parse_failure_dropped dcSampleA (Json.str "garbage")
      (Json.obj [("event", Json.str "sctpsendbufferfull")])
      (Json.obj [("event", Json.str "message"), ("data", Json.obj [("ppid", Json.num 51)])])
      [1, 2] [3, 4] rfl rfl⟩


/-! ### C7 -/

/-- C7: if the worker subprocess exits before sending its `running`
    ready notification, `Worker::new` returns a startup error
    ("worker process exited before being ready"), not a usable session. -/
theorem claim_exit_before_ready_fails (pid : Nat) :
    workerNew pid ReadyOutcome.processExited
      = Except.error WorkerStartError.exitedBeforeReady := rfl

/-! ### C8 -/

theorem firedDiedList_append (a b : List WorkerEffect) :
    firedDiedList (a ++ b) = firedDiedList a ++ firedDiedList b := by
  simp [firedDiedList]

theorem firedClosedList_append (a b : List WorkerEffect) :
    firedClosedList (a ++ b) = firedClosedList a ++ firedClosedList b := by
  simp [firedClosedList]

@[simp]
theorem firedDiedList_map_died (l : List Nat) (st : Int) :
    firedDiedList (l.map fun cb => WorkerEffect.firedDied cb st) = l := by
  induction l with
  | nil => rfl
  | cons a l ih => exact congrArg (List.cons a) ih

@[simp]
theorem firedDiedList_map_closed (l : List Nat) :
    firedDiedList (l.map WorkerEffect.firedClosed) = [] := by
  induction l with
  | nil => rfl
  | cons a l ih => exact ih

@[simp]
theorem firedDiedList_sigterm (b : Bool) :
    firedDiedList (if b then [WorkerEffect.sentSigterm] else []) = [] := by
  cases b <;> rfl

@[simp]
theorem firedDiedList_nil : firedDiedList [] = [] := rfl

@[simp]
theorem firedClosedList_map_closed (l : List Nat) :
    firedClosedList (l.map WorkerEffect.firedClosed) = l := by
  induction l with
  | nil => rfl
  | cons a l ih => exact congrArg (List.cons a) ih

@[simp]
theorem firedClosedList_map_died (l : List Nat) (st : Int) :
    firedClosedList (l.map fun cb => WorkerEffect.firedDied cb st) = [] := by
  induction l with
  | nil => rfl
  | cons a l ih => exact ih

@[simp]
theorem firedClosedList_sigterm (b : Bool) :
    firedClosedList (if b then [WorkerEffect.sentSigterm] else []) = [] := by
  cases b <;> rfl

@[simp]
theorem firedClosedList_nil : firedClosedList [] = [] := rfl

/-- Case analysis for one worker step: the `died` batch either does not
    fire (pending unchanged) or fires in full (pending emptied). -/
theorem workerStep_died_cases (s : WorkerLifeState) (ev : WorkerEvent) :
    (firedDiedList (workerStep s ev).2 = []
        ∧ (workerStep s ev).1.diedCallbacks = s.diedCallbacks)
    ∨ (firedDiedList (workerStep s ev).2 = s.diedCallbacks
        ∧ (workerStep s ev).1.diedCallbacks = []) := by
  cases ev with
  | subprocessExited st =>
    cases ha : s.innerAlive with
    | true => exact Or.inr (by simp [workerStep, ha])
    | false => exact Or.inl (by simp [workerStep, ha])
  | lastHandleDropped =>
    cases ha : s.innerAlive with
    | true => exact Or.inl (by simp [workerStep, ha, firedDiedList_append])
    | false => exact Or.inl (by simp [workerStep, ha])

/-- Case analysis for one worker step: the `closed` batch either does
    not fire or fires in full. -/
theorem workerStep_closed_cases (s : WorkerLifeState) (ev : WorkerEvent) :
    (firedClosedList (workerStep s ev).2 = []
        ∧ (workerStep s ev).1.closedCallbacks = s.closedCallbacks)
    ∨ (firedClosedList (workerStep s ev).2 = s.closedCallbacks
        ∧ (workerStep s ev).1.closedCallbacks = []) := by
  cases ev with
  | subprocessExited st =>
    cases ha : s.innerAlive with
    | true => exact Or.inl (by simp [workerStep, ha])
    | false => exact Or.inl (by simp [workerStep, ha])
  | lastHandleDropped =>
    cases ha : s.innerAlive with
    | true => exact Or.inr (by simp [workerStep, ha, firedClosedList_append])
    | false => exact Or.inl (by simp [workerStep, ha])

/-- In any worker trace the `died` callbacks either have not fired yet
    (and are still all pending) or have fired exactly once as a whole
    batch (and none is pending). -/
theorem workerRun_died_once (evs : List WorkerEvent) :
    ∀ s : WorkerLifeState,
    (firedDiedList (workerRun s evs).2 = []
        ∧ (workerRun s evs).1.diedCallbacks = s.diedCallbacks)
    ∨ (firedDiedList (workerRun s evs).2 = s.diedCallbacks
        ∧ (workerRun s evs).1.diedCallbacks = []) := by
  induction evs with
  | nil => intro s; exact Or.inl ⟨rfl, rfl⟩
  | cons ev evs ih =>
    intro s
    have hfl : firedDiedList (workerRun s (ev :: evs)).2
        = firedDiedList (workerStep s ev).2
          ++ firedDiedList (workerRun (workerStep s ev).1 evs).2 := by
      simp [workerRun, firedDiedList_append]
    have hfinal : (workerRun s (ev :: evs)).1 = (workerRun (workerStep s ev).1 evs).1 := by
      simp [workerRun]
    rcases workerStep_died_cases s ev with ⟨a1, a2⟩ | ⟨a1, a2⟩ <;>
      rcases ih (workerStep s ev).1 with ⟨b1, b2⟩ | ⟨b1, b2⟩
    · exact Or.inl ⟨by rw [hfl, a1, b1]; rfl, by rw [hfinal, b2]; exact a2⟩
    · exact Or.inr ⟨by rw [hfl, a1, b1]; simpa using a2, by rw [hfinal]; exact b2⟩
    · exact Or.inr ⟨by rw [hfl, a1, b1]; simp, by rw [hfinal, b2]; exact a2⟩
    · exact Or.inr ⟨by rw [hfl, a1, b1, a2]; simp, by rw [hfinal]; exact b2⟩

/-- In any worker trace the `closed` callbacks either have not fired yet
    or have fired exactly once as a whole batch. -/
theorem workerRun_closed_once (evs : List WorkerEvent) :
    ∀ s : WorkerLifeState,
    (firedClosedList (workerRun s evs).2 = []
        ∧ (workerRun s evs).1.closedCallbacks = s.closedCallbacks)
    ∨ (firedClosedList (workerRun s evs).2 = s.closedCallbacks
        ∧ (workerRun s evs).1.closedCallbacks = []) := by
  induction evs with
  | nil => intro s; exact Or.inl ⟨rfl, rfl⟩
  | cons ev evs ih =>
    intro s
    have hfl : firedClosedList (workerRun s (ev :: evs)).2
        = firedClosedList (workerStep s ev).2
          ++ firedClosedList (workerRun (workerStep s ev).1 evs).2 := by
      simp [workerRun, firedClosedList_append]
    have hfinal : (workerRun s (ev :: evs)).1 = (workerRun (workerStep s ev).1 evs).1 := by
      simp [workerRun]
    rcases workerStep_closed_cases s ev with ⟨a1, a2⟩ | ⟨a1, a2⟩ <;>
      rcases ih (workerStep s ev).1 with ⟨b1, b2⟩ | ⟨b1, b2⟩
    · exact Or.inl ⟨by rw [hfl, a1, b1]; rfl, by rw [hfinal, b2]; exact a2⟩
    · exact Or.inr ⟨by rw [hfl, a1, b1]; simpa using a2, by rw [hfinal]; exact b2⟩
    · exact Or.inr ⟨by rw [hfl, a1, b1]; simp, by rw [hfinal, b2]; exact a2⟩
    · exact Or.inr ⟨by rw [hfl, a1, b1, a2]; simp, by rw [hfinal]; exact b2⟩

/-- A concrete live worker session with one `died` and one `closed`
    callback registered. -/
def workerSampleA : WorkerLifeState :=
  { innerAlive := true, processRunning := true
    diedCallbacks := [1], closedCallbacks := [2] }

/-- Counterexample to C8: drop the last worker handle first, then let
    the subprocess exit (the `SIGTERM` sent by `Drop` makes exactly this
    order real).  The subprocess exits, yet the registered `died`
    callback never fires (the exit observer cannot upgrade its
    `Weak<Inner>`), and the `closed` callbacks fired before the exit —
    so "died fires exactly once, followed by closed" is false. -/
theorem claim_worker_died_once_cex :
    ¬ (firedDiedList (workerRun workerSampleA
          [WorkerEvent.lastHandleDropped, WorkerEvent.subprocessExited 0]).2
        = workerSampleA.diedCallbacks
      ∧ firedClosedList (workerRun workerSampleA
          [WorkerEvent.lastHandleDropped, WorkerEvent.subprocessExited 0]).2
        = workerSampleA.closedCallbacks) := by
  decide

/-- C8 amended: if the subprocess exits while the worker's `Inner` is
    still alive, the `died` callbacks fire exactly once each, receiving
    the exit status, and the `closed` callbacks fire exactly once each
    when the last handle is then dropped, after the `died` batch; and in
    every trace whatsoever, each batch fires at most once (its fired
    list is empty or exactly the registered list). -/
theorem claim_worker_died_then_closed
    (s : WorkerLifeState) (st : Int) (evs : List WorkerEvent)
    (h : s.innerAlive = true) :
    ((workerRun s [WorkerEvent.subprocessExited st, WorkerEvent.lastHandleDropped]).2
      = (s.diedCallbacks.map fun cb => WorkerEffect.firedDied cb st)
        ++ s.closedCallbacks.map WorkerEffect.firedClosed)
    ∧ (firedDiedList (workerRun s evs).2 = []
        ∨ firedDiedList (workerRun s evs).2 = s.diedCallbacks)
    ∧ (firedClosedList (workerRun s evs).2 = []
        ∨ firedClosedList (workerRun s evs).2 = s.closedCallbacks) := by
  refine ⟨?_, ?_, ?_⟩
  · simp [workerRun, workerStep, h]
  · rcases workerRun_died_once evs s with ⟨h1, _⟩ | ⟨h1, _⟩
    · exact Or.inl h1
    · exact Or.inr h1
  · rcases workerRun_closed_once evs s with ⟨h1, _⟩ | ⟨h1, _⟩
    · exact Or.inl h1
    · exact Or.inr h1

/-- Witness for the amended C8 at the sample worker. -/
theorem claim_worker_died_then_closed_witness :
    workerSampleA.innerAlive = true
    ∧ (((workerRun workerSampleA
          [WorkerEvent.subprocessExited 7, WorkerEvent.lastHandleDropped]).2
        = (workerSampleA.diedCallbacks.map fun cb => WorkerEffect.firedDied cb 7)
          ++ workerSampleA.closedCallbacks.map WorkerEffect.firedClosed)
      ∧ (firedDiedList (workerRun workerSampleA
            [WorkerEvent.lastHandleDropped, WorkerEvent.subprocessExited 0]).2 = []
          ∨ firedDiedList (workerRun workerSampleA
              [WorkerEvent.lastHandleDropped, WorkerEvent.subprocessExited 0]).2
            = workerSampleA.diedCallbacks)
      ∧ (firedClosedList (workerRun workerSampleA
            [WorkerEvent.lastHandleDropped, WorkerEvent.subprocessExited 0]).2 = []
          ∨ firedClosedList (workerRun workerSampleA
              [WorkerEvent.lastHandleDropped, WorkerEvent.subprocessExited 0]).2
            = workerSampleA.closedCallbacks)) :=
  ⟨rfl, claim_worker_died_then_closed workerSampleA 7
    [WorkerEvent.lastHandleDropped, WorkerEvent.subprocessExited 0] rfl⟩

/-! ### C9 -/

/-- C9 (spec-modelled: `channel.rs` is not under `src/`): when the
    channel closes, every still-pending request fails with
    `ChannelClosed` and the pending table empties; every request issued
    afterwards fails immediately with `ChannelClosed` without writing a
    frame or recording a pending entry. -/
theorem claim_channel_closure_fails_all (s : ChannelModel) (id : Nat) :
    (channelCloseAll s).1.closed = true
    ∧ (channelCloseAll s).1.pending = []
    ∧ (channelCloseAll s).2
        = s.pending.map (fun i => ChannelEffect.requestFailed i RequestError.channelClosed)
    ∧ channelIssueRequest (channelCloseAll s).1 id
        = ((channelCloseAll s).1,
            [ChannelEffect.requestFailed id RequestError.channelClosed]) := by
  refine ⟨rfl, rfl, rfl, ?_⟩
  simp [channelIssueRequest, channelCloseAll]

/-! ### C10 -/

/-- C10: calling `on_close` on an already-closed resource invokes the
    newly registered callback immediately, during the `on_close` call,
    and still returns a `HandlerId`; the callbacks registered before the
    close were consumed when the close fired them and are not invoked a
    second time — over close-then-`on_close`, each original callback and
    the new one fire exactly once.  Stated for both resources. -/
theorem claim_on_close_when_closed
    (sc : DataConsumerState) (sp : DataProducerState) (cbC cbP : Nat)
    (hc : sc.closed = false) (hp : sp.closed = false) :
    ((dcOnClose (dataConsumerClose sc).1 cbC).1.2 = [DCEffect.firedClose cbC]
      ∧ (dcOnClose (dataConsumerClose sc).1 cbC).2 = cbC
      ∧ dcFiredCloseList
          ((dataConsumerClose sc).2 ++ (dcOnClose (dataConsumerClose sc).1 cbC).1.2)
          = sc.handlers.close ++ [cbC])
    ∧ ((dpOnClose (dataProducerClose sp).1 cbP).1.2 = [DPEffect.firedClose cbP]
      ∧ (dpOnClose (dataProducerClose sp).1 cbP).2 = cbP
      ∧ dpFiredCloseList
          ((dataProducerClose sp).2 ++ (dpOnClose (dataProducerClose sp).1 cbP).1.2)
          = sp.handlers.close ++ [cbP]) := by
  refine ⟨⟨?_, ?_, ?_⟩, ⟨?_, ?_, ?_⟩⟩ <;>
    simp [dataConsumerClose, dataProducerClose, dcOnClose, dpOnClose, hc, hp,
      dcFiredCloseList_append, dpFiredCloseList_append]

/-- Witness for C10 at the sample states. -/
theorem claim_on_close_when_closed_witness :
    (dcSampleA.closed = false ∧ dpSampleA.closed = false)
    ∧ (((dcOnClose (dataConsumerClose dcSampleA).1 33).1.2 = [DCEffect.firedClose 33]
      ∧ (dcOnClose (dataConsumerClose dcSampleA).1 33).2 = 33
      ∧ dcFiredCloseList
          ((dataConsumerClose dcSampleA).2 ++ (dcOnClose (dataConsumerClose dcSampleA).1 33).1.2)
          = dcSampleA.handlers.close ++ [33])
    ∧ ((dpOnClose (dataProducerClose dpSampleA).1 34).1.2 = [DPEffect.firedClose 34]
      ∧ (dpOnClose (dataProducerClose dpSampleA).1 34).2 = 34
      ∧ dpFiredCloseList
          ((dataProducerClose dpSampleA).2 ++ (dpOnClose (dataProducerClose dpSampleA).1 34).1.2)
          = dpSampleA.handlers.close ++ [34])) :=
  ⟨⟨rfl, rfl⟩, claim_on_close_when_closed dcSampleA dpSampleA 33 34 rfl rfl⟩

end Mediasoup
